import Mathlib

/-!
# A shallow embedding of the `setup.py` build orchestrator

This file embeds the decision logic of the repository's `setup.py` in Lean 4:
the platform classifier `is_new_osx`, the toolchain flag tables
`COMPILE_OPTIONS` / `LINK_OPTIONS` and their macOS augmentation, the
extension-descriptor construction loop of `setup_package`, the
`generate_cython` regeneration gate, the `clean` artifact remover, and the
`chdir` context manager.  Ambient process state (`sys.platform`, the
`distutils` platform string, filesystem contents, the generator's exit
status) is passed explicitly as parameters, and Python exceptions are
modelled with `Except`.
-/

namespace SetupPy

/-- Models Python's whitespace class as stripped by `int()` (ASCII part;
exotic unicode spaces are not modelled, no input below contains any). -/
def pyIsSpace (c : Char) : Bool :=
  c = ' ' || c = '\t' || c = '\n' || c = '\r' || c = '\x0b' || c = '\x0c'

/-- Models Python's `str.isdigit` restricted to ASCII decimal digits. -/
def pyIsDigit (c : Char) : Bool :=
  '0' ≤ c && c ≤ '9'

/-- Split a character list at every occurrence of `sep`, keeping empty
chunks, as Python's `str.split(sep)` does for a one-character separator. -/
def splitChar (sep : Char) : List Char → List (List Char)
  | [] => [[]]
  | c :: cs =>
    match splitChar sep cs with
    | [] => if c = sep then [[], []] else [[c]]
    | r :: rs => if c = sep then [] :: r :: rs else (c :: r) :: rs

/-- Models Python's `s.split(sep)` for a one-character separator string. -/
def pySplit (s : String) (sep : Char) : List String :=
  (splitChar sep s.toList).map (fun l => String.mk l)

/-- `charsLeadWith p s` holds when `p` is an initial segment of `s`. -/
def charsLeadWith : List Char → List Char → Bool
  | [], _ => true
  | _ :: _, [] => false
  | p :: ps, c :: cs => p = c && charsLeadWith ps cs

/-- Models Python's `s.startswith(pre)`. -/
def pyStartsWith (s pre : String) : Bool :=
  charsLeadWith pre.toList s.toList

/-- Decimal value of a digit list (most significant first). -/
def digitsToNat (cs : List Char) : Nat :=
  cs.foldl (fun n c => 10 * n + (c.toNat - '0'.toNat)) 0

/-- Models Python's `int(s)` on a character list: strip surrounding
whitespace, allow one sign, then decimal digits; anything else raises
`ValueError`, rendered as `none`.  (Python's digit-group underscores are
not modelled; no input below contains them.) -/
def pyIntOfChars (cs : List Char) : Option Int :=
  let cs := ((cs.dropWhile pyIsSpace).reverse.dropWhile pyIsSpace).reverse
  match cs with
  | '-' :: rest =>
    if rest ≠ [] ∧ rest.all pyIsDigit then some (-(digitsToNat rest : Int)) else none
  | '+' :: rest =>
    if rest ≠ [] ∧ rest.all pyIsDigit then some (digitsToNat rest : Int) else none
  | rest =>
    if rest ≠ [] ∧ rest.all pyIsDigit then some (digitsToNat rest : Int) else none

/-- Models Python's `int(s)` as an `Option`. -/
def pyInt? (s : String) : Option Int :=
  pyIntOfChars s.toList

/-- Models `name.replace(".", "/")`: for a one-character pattern and
replacement this is a character-wise substitution. -/
def pyReplaceDot (s : String) : String :=
  String.mk (s.toList.map (fun c => if c = '.' then '/' else c))

/-- Models `name.count(".")`. -/
def pyCountDot (s : String) : Nat :=
  (s.toList.filter (fun c => c = '.')).length

/-- Models the expression `int(name.split("-")[1].split(".")[1])` from
`is_new_osx` (src/setup.py line 20).  A missing list index raises
`IndexError`; a non-numeric chunk raises `ValueError`. -/
def splitMinor (name : String) : Except String Int :=
  match (pySplit name '-')[1]? with
  | none => .error "IndexError"
  | some chunk =>
    match (pySplit chunk '.')[1]? with
    | none => .error "IndexError"
    | some minorStr =>
      match pyInt? minorStr with
      | none => .error "ValueError"
      | some n => .ok n

/-- Embeds `is_new_osx` (src/setup.py lines 14-26).  The ambient state —
`sys.platform` and `distutils.util.get_platform()` — is passed in as the
two arguments; a Python exception escaping the function is `.error`. -/
def is_new_osx (sysPlatform name : String) : Except String Bool :=
  if sysPlatform ≠ "darwin" then
    .ok false
  else if pyStartsWith name "macosx-10" then
    match splitMinor name with
    | .error e => .error e
    | .ok minor_version => .ok (decide (minor_version ≥ 7))
  else
    .ok false

/-- The module manifest `MOD_NAMES` (src/setup.py lines 32-63). -/
def MOD_NAMES : List String :=
  ["spacy.parts_of_speech",
   "spacy.strings",
   "spacy.lexeme",
   "spacy.vocab",
   "spacy.attrs",
   "spacy.kb",
   "spacy.morphology",
   "spacy.pipeline.pipes",
   "spacy.pipeline.morphologizer",
   "spacy.syntax.stateclass",
   "spacy.syntax._state",
   "spacy.tokenizer",
   "spacy.syntax.nn_parser",
   "spacy.syntax._parser_model",
   "spacy.syntax._beam_utils",
   "spacy.syntax.nonproj",
   "spacy.syntax.transition_system",
   "spacy.syntax.arc_eager",
   "spacy.gold",
   "spacy.tokens.doc",
   "spacy.tokens.span",
   "spacy.tokens.token",
   "spacy.tokens.morphanalysis",
   "spacy.tokens._retokenize",
   "spacy.matcher.matcher",
   "spacy.matcher.phrasematcher",
   "spacy.matcher.dependencymatcher",
   "spacy.syntax.ner",
   "spacy.symbols",
   "spacy.vectors"]

/-- The baseline `COMPILE_OPTIONS` dict (src/setup.py lines 66-70),
before the macOS augmentation. -/
def COMPILE_OPTIONS_base : List (String × List String) :=
  [("msvc", ["/Ox", "/EHsc"]),
   ("mingw32", ["-O2", "-Wno-strict-prototypes", "-Wno-unused-function"]),
   ("other", ["-O2", "-Wno-strict-prototypes", "-Wno-unused-function"])]

/-- The baseline `LINK_OPTIONS` dict (src/setup.py line 73). -/
def LINK_OPTIONS_base : List (String × List String) :=
  [("msvc", []), ("mingw32", []), ("other", [])]

/-- Append `flags` to the entry keyed `"other"`, modelling the in-place
`OPTIONS["other"].append(...)` calls of src/setup.py lines 79-83. -/
def appendOther (d : List (String × List String)) (flags : List String) :
    List (String × List String) :=
  d.map (fun p => if p.1 = "other" then (p.1, p.2 ++ flags) else p)

/-- The pair of flag tables held by the module after import. -/
structure ToolchainPolicy where
  compile : List (String × List String)
  link : List (String × List String)
deriving Repr, DecidableEq

/-- The module-level table construction (src/setup.py lines 66-83): start
from the baseline dicts and, when `is_new_osx()` returned true (`gated`),
append the libc++ flags to the `"other"` entries.  The augmentation runs
once, at module import, against the fixed base tables. -/
def buildPolicy (gated : Bool) : ToolchainPolicy :=
  if gated then
    { compile := appendOther COMPILE_OPTIONS_base ["-stdlib=libc++"],
      link := appendOther LINK_OPTIONS_base ["-lc++", "-nodefaultlibs"] }
  else
    { compile := COMPILE_OPTIONS_base, link := LINK_OPTIONS_base }

/-- Association-list lookup, modelling a Python dict read on the literal
dicts above (whose keys are distinct). -/
def dictLookup : List (String × List String) → String → Option (List String)
  | [], _ => none
  | (k, v) :: rest, key => if key = k then some v else dictLookup rest key

/-- Models `COMPILE_OPTIONS.get(ct, COMPILE_OPTIONS["other"])` from
`build_ext_options.build_options` (src/setup.py lines 91-93).  The
`"other"` key is present in every table built above, so the `KeyError`
branch of the direct index is unreachable; it is rendered as `[]`. -/
def lookupCompile (pol : ToolchainPolicy) (compilerType : String) : List String :=
  (dictLookup pol.compile compilerType).getD
    ((dictLookup pol.compile "other").getD [])

/-- Models `LINK_OPTIONS.get(ct, LINK_OPTIONS["other"])` (src/setup.py
lines 95-97). -/
def lookupLink (pol : ToolchainPolicy) (compilerType : String) : List String :=
  (dictLookup pol.link compilerType).getD
    ((dictLookup pol.link "other").getD [])

/-- The fields of a `setuptools.Extension` that src/setup.py populates
(lines 166-174), plus the flag lists that `build_options` appends to. -/
structure Extension where
  name : String
  sources : List String
  language : String
  include_dirs : List String
  extra_link_args : List String
  extra_compile_args : List String
deriving Repr, DecidableEq

/-- The relative "up" path `[".." for _ in range(mod_name.count("."))]`
(src/setup.py line 162). -/
def dylibUp (mod_name : String) : List String :=
  List.replicate (pyCountDot mod_name) ".."

/-- One iteration of the descriptor loop of `setup_package` (src/setup.py
lines 155-174): derive the source path, attach the rpath flag when
`sys.platform == "darwin"`, and build the `Extension`. -/
def buildDescriptor (sysPlatform : String) (include_dirs : List String)
    (mod_name : String) : Extension :=
  let mod_path := pyReplaceDot mod_name ++ ".cpp"
  let extra_link_args :=
    if sysPlatform = "darwin" then
      let dylib_path := String.intercalate "/" (dylibUp mod_name)
      let dylib_path := "@loader_path/" ++ dylib_path ++ "/spacy/platform/darwin/lib"
      ["-Wl,-rpath," ++ dylib_path]
    else
      []
  { name := mod_name,
    sources := [mod_path],
    language := "c++",
    include_dirs := include_dirs,
    extra_link_args := extra_link_args,
    extra_compile_args := [] }

/-- The whole `ext_modules` loop (src/setup.py lines 154-174). -/
def buildDescriptors (sysPlatform : String) (include_dirs : List String)
    (manifest : List String) : List Extension :=
  manifest.map (buildDescriptor sysPlatform include_dirs)

/-- Embeds `generate_cython` (src/setup.py lines 106-111): the generator
subprocess's exit status is passed in; a non-zero status raises
`RuntimeError("Running cythonize failed")`. -/
def generate_cython (exitStatus : Int) : Except String Unit :=
  if exitStatus ≠ 0 then .error "Running cythonize failed" else .ok ()

/-- The build path of `setup_package` (src/setup.py lines 154-185),
after include-directory resolution: build `ext_modules`, run
`generate_cython` unless `PKG-INFO` exists at the root, then hand the
descriptors to `setup`.  The result records how many times the generator
was invoked, and `.ok exts` exactly when `setup` received `exts`
(an uncaught exception aborts before `setup` is reached). -/
def setup_package_build (pkgInfoExists : Bool) (genExitStatus : Int)
    (sysPlatform : String) (include_dirs : List String) :
    Nat × Except String (List Extension) :=
  let ext_modules := buildDescriptors sysPlatform include_dirs MOD_NAMES
  if pkgInfoExists then
    (0, .ok ext_modules)
  else
    match generate_cython genExitStatus with
    | .error e => (1, .error e)
    | .ok _ => (1, .ok ext_modules)

/-! ## Clean step

The filesystem is modelled by its membership test: `fs p = true` when a
file exists at path `p`.  `path / f"{name}.{ext}"` is rendered as string
concatenation with `"/"`. -/

/-- The artifact path `path / f"{name}.{ext}"` for a module (src/setup.py
line 118), with `name` already dot-to-slash converted. -/
def artifactPath (root name ext : String) : String :=
  root ++ "/" ++ pyReplaceDot name ++ "." ++ ext

/-- The artifact extension list of src/setup.py line 117. -/
def CLEAN_EXTS : List String := ["so", "html", "cpp", "c"]

/-- Effect of `file_path.unlink()` on the filesystem: the file vanishes. -/
def eraseFile (fs : String → Bool) (p : String) : String → Bool :=
  fun q => if q = p then false else fs q

/-- One inner-loop iteration of `clean` (src/setup.py lines 118-120):
`if file_path.exists(): file_path.unlink()`. -/
def cleanOne (fs : String → Bool) (p : String) : String → Bool :=
  if fs p then eraseFile fs p else fs

/-- The inner loop of `clean` for one module name. -/
def cleanModule (root name : String) (fs : String → Bool) : String → Bool :=
  CLEAN_EXTS.foldl (fun fs ext => cleanOne fs (artifactPath root name ext)) fs

/-- Embeds `clean` (src/setup.py lines 114-120) as a filesystem
transformer. -/
def clean (root : String) (fs : String → Bool) : String → Bool :=
  MOD_NAMES.foldl (fun fs name => cleanModule root name fs) fs

/-- `file_path.unlink()` as a fallible operation: unlinking a missing
file raises `FileNotFoundError`. -/
def unlinkFile (fs : String → Bool) (p : String) :
    Except String (String → Bool) :=
  if fs p then .ok (eraseFile fs p) else .error "FileNotFoundError"

/-- The guarded unlink of src/setup.py lines 119-120, with the raise
behaviour of `unlink` kept visible. -/
def cleanOneE (fs : String → Bool) (p : String) :
    Except String (String → Bool) :=
  if fs p then unlinkFile fs p else .ok fs

/-- `cleanModule` with the exception channel kept visible. -/
def cleanModuleE (root name : String) (fs : String → Bool) :
    Except String (String → Bool) :=
  CLEAN_EXTS.foldlM (fun fs ext => cleanOneE fs (artifactPath root name ext)) fs

/-- `clean` with the exception channel kept visible: `.error` would mean
an uncaught exception escaping `clean`. -/
def cleanE (root : String) (fs : String → Bool) :
    Except String (String → Bool) :=
  MOD_NAMES.foldlM (fun fs name => cleanModuleE root name fs) fs

/-! ## The `chdir` context manager -/

/-- The process state the `chdir` context manager touches: the current
working directory and `sys.path`. -/
structure ProcState where
  cwd : String
  sysPath : List String
deriving Repr, DecidableEq

/-- Embeds the `chdir` context manager (src/setup.py lines 123-132)
wrapped around a `with` body.  The body receives the state after
`os.chdir(new_dir)` and `sys.path.insert(0, new_dir)` and returns a
result (possibly an exception) and a final state; the `finally` block
(`del sys.path[0]; os.chdir(old_dir)`) runs on both exit paths, after
which the exception, if any, propagates. -/
def chdirScope (new_dir : String)
    (body : ProcState → Except String Unit × ProcState) (s : ProcState) :
    Except String Unit × ProcState :=
  let old_dir := s.cwd
  let entered : ProcState := { cwd := new_dir, sysPath := new_dir :: s.sysPath }
  let res := body entered
  (res.1, { cwd := old_dir, sysPath := res.2.sysPath.drop 1 })

/-- The full list of artifact paths `clean` iterates over. -/
def cleanTargets (root : String) : List String :=
  MOD_NAMES.flatMap (fun name => CLEAN_EXTS.map (artifactPath root name))

lemma cleanOne_apply (fs : String → Bool) (p q : String) :
    cleanOne fs p q = if q = p then false else fs q := by
  by_cases hq : q = p
  · subst hq
    by_cases hp : fs q <;> simp [cleanOne, eraseFile, hp]
  · by_cases hp : fs p <;> simp [cleanOne, eraseFile, hp, hq]

lemma foldl_cleanOne_apply :
    ∀ (ps : List String) (fs : String → Bool) (q : String),
      ps.foldl cleanOne fs q = if q ∈ ps then false else fs q := by
  intro ps
  induction ps with
  | nil => intro fs q; simp
  | cons p ps ih =>
    intro fs q
    simp only [List.foldl_cons, ih, cleanOne_apply, List.mem_cons]
    by_cases h1 : q ∈ ps <;> by_cases h2 : q = p <;> simp [h1, h2]

lemma cleanModule_eq_foldl (root name : String) (fs : String → Bool) :
    cleanModule root name fs = (CLEAN_EXTS.map (artifactPath root name)).foldl cleanOne fs := by
  simp [cleanModule, List.foldl_map]

lemma foldl_cleanModule_apply :
    ∀ (names : List String) (root : String) (fs : String → Bool) (q : String),
      (names.foldl (fun fs name => cleanModule root name fs) fs) q =
        if q ∈ names.flatMap (fun name => CLEAN_EXTS.map (artifactPath root name)) then false
        else fs q := by
  intro names
  induction names with
  | nil => intro root fs q; simp
  | cons n ns ih =>
    intro root fs q
    simp only [List.foldl_cons, ih, List.flatMap_cons, List.mem_append]
    rw [cleanModule_eq_foldl, foldl_cleanOne_apply]
    by_cases h1 : q ∈ CLEAN_EXTS.map (artifactPath root n) <;>
      by_cases h2 : q ∈ ns.flatMap (fun name => CLEAN_EXTS.map (artifactPath root name)) <;>
      simp [h1, h2]

lemma clean_apply (root : String) (fs : String → Bool) (q : String) :
    clean root fs q = if q ∈ cleanTargets root then false else fs q :=
  foldl_cleanModule_apply MOD_NAMES root fs q

lemma foldlM_ok_of_ok {α β : Type} (g : β → α → β) (gE : β → α → Except String β)
    (h : ∀ b a, gE b a = .ok (g b a)) :
    ∀ (l : List α) (b : β), l.foldlM gE b = .ok (l.foldl g b) := by
  intro l
  induction l with
  | nil => intro b; rfl
  | cons x xs ih =>
    intro b
    rw [List.foldlM_cons, h]
    exact ih (g b x)

lemma cleanOneE_ok (fs : String → Bool) (p : String) :
    cleanOneE fs p = .ok (cleanOne fs p) := by
  by_cases h : fs p <;> simp [cleanOneE, cleanOne, unlinkFile, h]

lemma cleanModuleE_ok (root name : String) (fs : String → Bool) :
    cleanModuleE root name fs = .ok (cleanModule root name fs) :=
  foldlM_ok_of_ok (fun fs ext => cleanOne fs (artifactPath root name ext))
    (fun fs ext => cleanOneE fs (artifactPath root name ext))
    (fun fs ext => cleanOneE_ok fs (artifactPath root name ext)) CLEAN_EXTS fs

lemma cleanE_ok (root : String) (fs : String → Bool) :
    cleanE root fs = .ok (clean root fs) :=
  foldlM_ok_of_ok (fun fs name => cleanModule root name fs)
    (fun fs name => cleanModuleE root name fs)
    (fun fs name => cleanModuleE_ok root name fs) MOD_NAMES fs

end SetupPy

/-! ## Claim theorems -/

open SetupPy

/-- C1 (counterexample): on darwin with platform string `macosx-11.0-x86_64`
the version-gated condition `is_new_osx` is not met, yet the descriptor
built for `spacy.strings` carries the loader-relative runtime-search-path
flag — its extra-link-arguments list is not empty. -/
theorem rpath_attached_on_nongated_darwin :
    is_new_osx "darwin" "macosx-11.0-x86_64" = .ok false ∧
    (buildDescriptor "darwin" [] "spacy.strings").extra_link_args =
      ["-Wl,-rpath,@loader_path/../spacy/platform/darwin/lib"] :=
  ⟨rfl, rfl⟩

/-- C1 (amended): a module's extension descriptor carries an empty
extra-link-arguments list exactly when the OS family is not darwin; on
darwin the runtime-search-path flag is attached regardless of the
version gate. -/
theorem extra_link_args_empty_iff_not_darwin (sysPlatform : String)
    (include_dirs : List String) (mod_name : String) :
    (buildDescriptor sysPlatform include_dirs mod_name).extra_link_args = [] ↔
      sysPlatform ≠ "darwin" := by
  by_cases h : sysPlatform = "darwin" <;> simp [buildDescriptor, h]

/-- C2: the descriptor builder yields exactly one descriptor per manifest
entry, in manifest order, and each descriptor's generated-source path is
the module name with dots replaced by path separators plus `".cpp"`. -/
theorem buildDescriptors_one_per_module_in_order (sysPlatform : String)
    (include_dirs : List String) (manifest : List String) :
    (buildDescriptors sysPlatform include_dirs manifest).length = manifest.length ∧
    (buildDescriptors sysPlatform include_dirs manifest).map Extension.name = manifest ∧
    (buildDescriptors sysPlatform include_dirs manifest).map Extension.sources =
      manifest.map (fun n => [pyReplaceDot n ++ ".cpp"]) := by
  refine ⟨by simp [buildDescriptors], ?_, ?_⟩
  · have h : Extension.name ∘ buildDescriptor sysPlatform include_dirs = id :=
      funext fun n => rfl
    rw [buildDescriptors, List.map_map, h, List.map_id]
  · have h : Extension.sources ∘ buildDescriptor sysPlatform include_dirs =
        fun n => [pyReplaceDot n ++ ".cpp"] :=
      funext fun n => rfl
    rw [buildDescriptors, List.map_map, h]

/-- C3 (counterexample): on the matching OS family, `is_new_osx` raises
rather than returning false for version strings that start with
`macosx-10` but do not parse: `macosx-10` alone hits a missing list
index, `macosx-10.x-fat` a non-numeric minor version. -/
theorem is_new_osx_raises_on_unparseable_macosx10 :
    is_new_osx "darwin" "macosx-10" = .error "IndexError" ∧
    is_new_osx "darwin" "macosx-10.x-fat" = .error "ValueError" :=
  ⟨rfl, rfl⟩

/-- C3 (amended): `is_new_osx` returns false for every non-matching OS and
for matching-OS platform strings that do not start with `macosx-10`;
however, when the string starts with `macosx-10` and its minor-version
component fails to parse, an exception propagates instead of a false
return — every error arises from that parse. -/
theorem is_new_osx_total_except_macosx10_parse (sysPlatform name : String) :
    (sysPlatform ≠ "darwin" → is_new_osx sysPlatform name = .ok false) ∧
    (pyStartsWith name "macosx-10" = false → is_new_osx sysPlatform name = .ok false) ∧
    (∀ e, is_new_osx sysPlatform name = .error e →
      sysPlatform = "darwin" ∧ pyStartsWith name "macosx-10" = true ∧
        splitMinor name = .error e) := by
  refine ⟨fun h => by simp [is_new_osx, h], fun h => ?_, fun e he => ?_⟩
  · by_cases hd : sysPlatform = "darwin"
    · simp [is_new_osx, hd, h]
    · simp [is_new_osx, hd]
  · by_cases hd : sysPlatform = "darwin"
    · by_cases hs : pyStartsWith name "macosx-10" = true
      · cases hsm : splitMinor name with
        | error a =>
          simp [is_new_osx, hd, hs, hsm] at he
          exact ⟨hd, hs, congrArg Except.error he⟩
        | ok v => simp [is_new_osx, hd, hs, hsm] at he
      · simp [is_new_osx, hd, hs] at he
    · simp [is_new_osx, hd] at he

/-- C3 (witness): the amended classifier facts at concrete inputs. -/
theorem is_new_osx_total_except_macosx10_parse_witness :
    is_new_osx "linux" "macosx-10.9-x86_64" = .ok false ∧
    is_new_osx "darwin" "macosx-11.0-arm64" = .ok false ∧
    ("darwin" = "darwin" ∧ pyStartsWith "macosx-10" "macosx-10" = true ∧
      splitMinor "macosx-10" = .error "IndexError") :=
  ⟨(is_new_osx_total_except_macosx10_parse "linux" "macosx-10.9-x86_64").1 (by decide),
   (is_new_osx_total_except_macosx10_parse "darwin" "macosx-11.0-arm64").2.1 (by decide),
   (is_new_osx_total_except_macosx10_parse "darwin" "macosx-10").2.2 "IndexError" rfl⟩

/-- C4: the relative "up" path computed for the runtime-search-path flag
has exactly as many `".."` segments as the module name has dots; in
particular `pkg.sub.b` gets 2 and `pkg.a` gets 1. -/
theorem dylib_up_segments_match_depth (mod_name : String) :
    (dylibUp mod_name).length = pyCountDot mod_name ∧
    (dylibUp mod_name).count ".." = pyCountDot mod_name ∧
    dylibUp "pkg.sub.b" = ["..", ".."] ∧
    dylibUp "pkg.a" = [".."] ∧
    (buildDescriptor "darwin" [] "pkg.sub.b").extra_link_args =
      ["-Wl,-rpath,@loader_path/../../spacy/platform/darwin/lib"] ∧
    (buildDescriptor "darwin" [] "pkg.a").extra_link_args =
      ["-Wl,-rpath,@loader_path/../spacy/platform/darwin/lib"] := by
  refine ⟨by simp [dylibUp], by simp [dylibUp], by decide, by decide, rfl, rfl⟩

/-- C5: after the version-gated augmentation, the fallback toolchain's
compile flags contain `-stdlib=libc++` exactly once and its link flags
contain `-lc++` and `-nodefaultlibs` exactly once each; the augmentation
is applied once to the fixed base tables, never accumulated. -/
theorem libcxx_augmentation_applied_once :
    (lookupCompile (buildPolicy true) "other").count "-stdlib=libc++" = 1 ∧
    (lookupLink (buildPolicy true) "other").count "-lc++" = 1 ∧
    (lookupLink (buildPolicy true) "other").count "-nodefaultlibs" = 1 ∧
    lookupCompile (buildPolicy true) "other" =
      lookupCompile (buildPolicy false) "other" ++ ["-stdlib=libc++"] ∧
    lookupLink (buildPolicy true) "other" =
      lookupLink (buildPolicy false) "other" ++ ["-lc++", "-nodefaultlibs"] := by
  decide

/-- C6: regeneration is skipped exactly when the `PKG-INFO` marker exists
and runs exactly once otherwise; the build errors out (before `setup`
receives any descriptor) exactly when the generator ran and exited
non-zero, and otherwise `setup` receives the full descriptor list. -/
theorem regeneration_gate_spec (pkgInfoExists : Bool) (genExitStatus : Int)
    (sysPlatform : String) (include_dirs : List String) :
    ((setup_package_build pkgInfoExists genExitStatus sysPlatform include_dirs).1 =
      if pkgInfoExists then 0 else 1) ∧
    ((setup_package_build pkgInfoExists genExitStatus sysPlatform include_dirs).2 =
        .error "Running cythonize failed" ↔
      pkgInfoExists = false ∧ genExitStatus ≠ 0) ∧
    (pkgInfoExists = true ∨ genExitStatus = 0 →
      (setup_package_build pkgInfoExists genExitStatus sysPlatform include_dirs).2 =
        .ok (buildDescriptors sysPlatform include_dirs MOD_NAMES)) := by
  cases pkgInfoExists <;> by_cases hg : genExitStatus = 0 <;>
    simp [setup_package_build, generate_cython, hg]

/-- C6 (witness): with the marker present the generator is skipped and
`setup` receives the descriptors. -/
theorem regeneration_gate_spec_witness :
    (setup_package_build true 1 "linux" []).2 =
      .ok (buildDescriptors "linux" [] MOD_NAMES) :=
  (regeneration_gate_spec true 1 "linux" []).2.2 (Or.inl rfl)

/-- C7: `clean` is idempotent — a second run leaves the filesystem exactly
as the first left it — and total: run with its exception channel visible
it always succeeds, never raising for an already-absent file. -/
theorem clean_idempotent_and_total (root : String) (fs : String → Bool) :
    clean root (clean root fs) = clean root fs ∧
    cleanE root fs = .ok (clean root fs) := by
  refine ⟨funext fun q => ?_, cleanE_ok root fs⟩
  simp only [clean_apply]
  by_cases h : q ∈ cleanTargets root <;> simp [h]

/-- C8: a compiler identifier that is not an explicit key of the flag
tables resolves to exactly the `"other"` entry's compile and link flag
lists, for both the augmented and the unaugmented tables. -/
theorem unknown_compiler_falls_back (gated : Bool) (compilerType : String)
    (h1 : compilerType ≠ "msvc") (h2 : compilerType ≠ "mingw32")
    (h3 : compilerType ≠ "other") :
    lookupCompile (buildPolicy gated) compilerType =
      lookupCompile (buildPolicy gated) "other" ∧
    lookupLink (buildPolicy gated) compilerType =
      lookupLink (buildPolicy gated) "other" := by
  cases gated <;>
    simp [buildPolicy, lookupCompile, lookupLink, dictLookup, appendOther,
      COMPILE_OPTIONS_base, LINK_OPTIONS_base, h1, h2, h3]

/-- C8 (witness): the fallback at the concrete unknown key `"unix"`. -/
theorem unknown_compiler_falls_back_witness :
    lookupCompile (buildPolicy true) "unix" = lookupCompile (buildPolicy true) "other" ∧
    lookupLink (buildPolicy true) "unix" = lookupLink (buildPolicy true) "other" :=
  unknown_compiler_falls_back true "unix" (by decide) (by decide) (by decide)

/-- C9: the `chdir` scope restores the previous working directory on every
exit path — the final state's cwd equals the entry state's cwd whatever
the body did — and the body's outcome (success or exception) propagates
unchanged. -/
theorem chdir_restores_cwd_on_every_exit (new_dir : String)
    (body : ProcState → Except String Unit × ProcState) (s : ProcState) :
    (chdirScope new_dir body s).2.cwd = s.cwd ∧
    (chdirScope new_dir body s).1 =
      (body { cwd := new_dir, sysPath := new_dir :: s.sysPath }).1 :=
  ⟨rfl, rfl⟩

/-- C10: on the matching OS family, every platform string that does not
start with `macosx-10` — including newer major versions such as
`macosx-11.0-...` — makes the classifier report the gate as not met. -/
theorem is_new_osx_false_without_macosx10_prefix (name : String)
    (h : pyStartsWith name "macosx-10" = false) :
    is_new_osx "darwin" name = .ok false := by
  simp [is_new_osx, h]

/-- C10 (witness): the gate is reported not met on `macosx-11.0-x86_64`. -/
theorem is_new_osx_false_without_macosx10_prefix_witness :
    is_new_osx "darwin" "macosx-11.0-x86_64" = .ok false :=
  is_new_osx_false_without_macosx10_prefix "macosx-11.0-x86_64" (by decide)
